import Mathlib

/-!
Shallow embedding of `pathaia/util/management.py` (dataset assembly from a
pathaia project folder) and proofs of the specification's claims about it.

The filesystem is modelled as a tree of nodes: a directory holds a list of
named children (listing order = `os.listdir` order); a file holds the patch
table that `pandas.read_csv` would produce from it (the table reader itself
is the spec's external collaborator).  Paths are lists of components;
`os.path.join(a, b)` is `a ++ [b]`.

Python exceptions are modelled by an explicit error type: the module's five
error classes plus one constructor `externalError` standing for any
exception raised outside the module's taxonomy (`pandas` read failures,
`KeyError` on a missing required column).  Fallible functions return
`Except PyError _`.
-/

/-- A cell value of a patch table: pandas cells are numbers or strings here. -/
inductive Value where
  | int (i : Int)
  | str (s : String)
deriving DecidableEq

/-- A parsed patch table: header of named columns plus rows of cells, one
cell per column (pandas dataframes are rectangular: every row has a value,
possibly NaN, for every column). -/
structure PatchTable where
  columns : List String
  rows : List (List Value)
deriving DecidableEq

/-- `df.cell r c`: value of column `c` in row `r` (pandas `row[c]` for a
column of the dataframe). Total with a dummy default; meaningful whenever
`c ∈ columns` and the table is rectangular. -/
def PatchTable.cell (t : PatchTable) (r : List Value) (c : String) : Value :=
  r.getD (t.columns.indexOf c) (Value.str "")

/-- Errors: the module's exception classes (from `management.py`) plus
`externalError` for exceptions of foreign libraries (`pandas`, `KeyError`)
that the module neither declares nor catches. -/
inductive PyError where
  | levelNotFound (msg : String)
  | emptyProject (msg : String)
  | slideNotFound (msg : String)
  | patchesNotFound (msg : String)
  | unknownColumn (msg : String)
  | externalError (msg : String)
deriving DecidableEq

/-- `str(e)`: the human-readable message an error carries. -/
def PyError.msg : PyError → String
  | .levelNotFound m | .emptyProject m | .slideNotFound m
  | .patchesNotFound m | .unknownColumn m | .externalError m => m

/-- A filesystem node: a file (carrying the patch table `pandas.read_csv`
would parse from it) or a directory with named children in listing order. -/
inductive FSNode where
  | file (table : PatchTable)
  | dir (entries : List (String × FSNode))

/-- Resolve a path (list of components) against a root node. -/
def resolve : FSNode → List String → Option FSNode
  | node, [] => some node
  | FSNode.file _, _ :: _ => none
  | FSNode.dir entries, n :: rest =>
    match entries.lookup n with
    | some child => resolve child rest
    | none => none

/-- `os.path.isdir`. -/
def isdir (fs : FSNode) (p : List String) : Bool :=
  match resolve fs p with
  | some (FSNode.dir _) => true
  | _ => false

/-- `os.path.exists`. -/
def pathExists (fs : FSNode) (p : List String) : Bool :=
  (resolve fs p).isSome

/-- `os.listdir`: names of a directory's entries, in listing order
(empty on a non-directory; the module only calls it after an `isdir`
check). -/
def listdir (fs : FSNode) (p : List String) : List String :=
  match resolve fs p with
  | some (FSNode.dir entries) => entries.map (fun e => e.1)
  | _ => []

/-- Render a path the way the Python code's messages do (`os.path.join`
with `/`). -/
def pathStr (p : List String) : String :=
  String.intercalate "/" p

/-- Python's `s.startswith(pre)`, on the character sequence. -/
def pyStartsWith (s pre : String) : Bool :=
  pre.data.isPrefixOf s.data

/-- Python's `s.endswith(post)`, on the character sequence. -/
def pyEndsWith (s post : String) : Bool :=
  post.data.isSuffixOf s.data

/-- Python's `s[:-n]` / the base left after stripping an `n`-character
extension, on the character sequence. -/
def pyDropRight (s : String) (n : Nat) : String :=
  String.mk (s.data.take (s.data.length - n))

/-- Python's substring test `sub in s`. -/
def containsSub (s sub : String) : Bool :=
  (List.range (s.data.length + 1)).any (fun i => sub.data.isPrefixOf (s.data.drop i))

/-- `get_patch_csv_from_patch_folder`: inside an existing patch folder,
return the path of `patches.csv`; `PatchesNotFoundError` if the file is
missing, `SlideNotFoundError` if the folder is not a directory. -/
def get_patch_csv_from_patch_folder (fs : FSNode) (patch_folder : List String) :
    Except PyError (List String) :=
  if isdir fs patch_folder then
    if pathExists fs (patch_folder ++ ["patches.csv"]) then
      .ok (patch_folder ++ ["patches.csv"])
    else
      .error (.patchesNotFound
        ("Could not find extracted patches for the slide: " ++ pathStr patch_folder))
  else
    .error (.slideNotFound
      ("Could not find a patch folder at: " ++ pathStr patch_folder ++ "!!!"))

/-- Default `exclude` argument of `get_patch_folders_in_project`. -/
def defaultExclude : List String := ["annotation"]

/-- `get_patch_folders_in_project`: `EmptyProjectError` when the project
path is not a directory; otherwise one `(name, joined path)` per listed
entry whose name contains no excluded substring and whose joined path is a
directory (the Python generator's yields, materialized in order). -/
def get_patch_folders_in_project (fs : FSNode) (project_folder : List String)
    (exclude : List String) : Except PyError (List (String × List String)) :=
  if isdir fs project_folder then
    .ok ((listdir fs project_folder).filterMap (fun name =>
      if exclude.any (fun ex => containsSub name ex) then none
      else if isdir fs (project_folder ++ [name]) then
        some (name, project_folder ++ [name])
      else none))
  else
    .error (.emptyProject ("Did not find any project at: " ++ pathStr project_folder))

/-- The candidate test of `get_slide_file`'s loop: ends with `.mrxs`, not
hidden, and the `os.path.splitext` base equals the slide name.  Under the
first two conjuncts the name's last dot is the one starting `.mrxs` and is
not a leading dot, so the splitext base is the name minus its last five
characters. -/
def isSlideMatch (slide_name n : String) : Bool :=
  pyEndsWith n ".mrxs" && !pyStartsWith n "." && slide_name == pyDropRight n 5

/-- First listing entry passing `isSlideMatch` (the Python `for` loop's
early `return`). -/
def find_slide_entry (slide_name : String) : List String → Option String
  | [] => none
  | n :: rest =>
    if isSlideMatch slide_name n then some n else find_slide_entry slide_name rest

/-- `get_slide_file`: absolute path of the WSI file for `slide_name` inside
`slide_folder`; `SlideNotFoundError` when the folder is not a directory or
no candidate matches. -/
def get_slide_file (fs : FSNode) (slide_folder : List String) (slide_name : String) :
    Except PyError (List String) :=
  if isdir fs slide_folder then
    match find_slide_entry slide_name (listdir fs slide_folder) with
    | some n => .ok (slide_folder ++ [n])
    | none =>
      .error (.slideNotFound
        ("Could not find an mrxs slide file for: " ++ slide_name ++ " in "
          ++ pathStr slide_folder ++ "!!!"))
  else
    .error (.slideNotFound
      ("Could not find a slide folder at: " ++ pathStr slide_folder ++ "!!!"))

/-- Per-row body of `handle_labeled_patches`'s loop: `row["x"]`, `row["y"]`,
`row[column]`; a lookup of a column absent from the dataframe raises
`KeyError` (modelled as `externalError`). -/
def PatchTable.rowCell (t : PatchTable) (r : List Value) (c : String) :
    Except PyError Value :=
  if c ∈ t.columns then .ok (t.cell r c) else .error (.externalError ("KeyError: " ++ c))

/-- The generator's iteration over the filtered rows, in order, stopping at
the first failing lookup. -/
def map_rows (t : PatchTable) (column : String) :
    List (List Value) → Except PyError (List (Value × Value × Value))
  | [] => .ok []
  | r :: rs =>
    match t.rowCell r "x" with
    | .error e => .error e
    | .ok xv =>
      match t.rowCell r "y" with
      | .error e => .error e
      | .ok yv =>
        match t.rowCell r column with
        | .error e => .error e
        | .ok lv =>
          match map_rows t column rs with
          | .error e => .error e
          | .ok rest => .ok ((xv, yv, lv) :: rest)

/-- `handle_labeled_patches` on the parsed table (`pandas.read_csv` is the
external reader; `patch_file` is the path string used in the error
message): filter rows whose `level` cell equals the queried level
(`df[df["level"] == level]`; accessing a missing `level` column is a
pandas `KeyError`), then fail with `UnknownColumnError` when `column` is
not a column of the filtered view (row filtering keeps every column, so
those are the table's columns), else yield `(x, y, label)` per surviving
row in table order. -/
def handle_labeled_patches (t : PatchTable) (patch_file : String) (level : Int)
    (column : String) : Except PyError (List (Value × Value × Value)) :=
  if "level" ∈ t.columns then
    let level_rows := t.rows.filter (fun r => decide (t.cell r "level" = Value.int level))
    if column ∈ t.columns then
      map_rows t column level_rows
    else
      .error (.unknownColumn
        ("Column " ++ column ++ " does not exists in " ++ patch_file ++ "!!!"))
  else
    .error (.externalError "KeyError: level")

/-- `pandas.read_csv`: parse the file at the path; any failure (missing
file, directory in place of a file) is an exception outside the module's
taxonomy. -/
def read_csv (fs : FSNode) (patch_file : List String) : Except PyError PatchTable :=
  match resolve fs patch_file with
  | some (FSNode.file t) => .ok t
  | _ => .error (.externalError ("pandas: cannot read " ++ pathStr patch_file))

/-- One patch descriptor appended by `list_patches`:
`{"slide": slide_path, "x": x, "y": y, "level": level, "dimensions": dim}`. -/
structure PatchDescriptor where
  slide : List String
  x : Value
  y : Value
  level : Int
  dimensions : Int × Int
deriving DecidableEq

/-- `PathaiaHandler`: the project folder and slide folder given to the
constructor. -/
structure PathaiaHandler where
  project_folder : List String
  slide_folder : List String

/-- The error kinds of `list_patches`'s `except` clause:
`(PatchesNotFoundError, UnknownColumnError, SlideNotFoundError)`. -/
def isCaught : PyError → Bool
  | .slideNotFound _ => true
  | .patchesNotFound _ => true
  | .unknownColumn _ => true
  | _ => false

/-- The body of `list_patches`'s `try` block for one slide entry: resolve
the slide file, then the patch csv, read it, extract the labeled patches,
and build this slide's descriptor and label lists (appended in row
order). -/
def process_slide (fs : FSNode) (slide_folder : List String) (level : Int)
    (dim : Int × Int) (label : String) (name : String) (patch_folder : List String) :
    Except PyError (List PatchDescriptor × List Value) :=
  match get_slide_file fs slide_folder name with
  | .error e => .error e
  | .ok slide_path =>
    match get_patch_csv_from_patch_folder fs patch_folder with
    | .error e => .error e
    | .ok patch_file =>
      match read_csv fs patch_file with
      | .error e => .error e
      | .ok t =>
        match handle_labeled_patches t (pathStr patch_file) level label with
        | .error e => .error e
        | .ok triples =>
          .ok (triples.map (fun q => ⟨slide_path, q.1, q.2.1, level, dim⟩),
               triples.map (fun q => q.2.2))

/-- The `for` loop of `list_patches` over the walker's yields: accumulate
each slide's descriptors and labels; a caught error becomes one warning
message (`warnings.warn(str(e))`) and the slide is skipped; any other
error propagates. The third component is the sequence of warning messages
emitted. -/
def assemble_slides (fs : FSNode) (slide_folder : List String) (level : Int)
    (dim : Int × Int) (label : String) :
    List (String × List String) →
      Except PyError (List PatchDescriptor × List Value × List String)
  | [] => .ok ([], [], [])
  | (name, patch_folder) :: rest =>
    match process_slide fs slide_folder level dim label name patch_folder with
    | .ok pr =>
      match assemble_slides fs slide_folder level dim label rest with
      | .ok (ps, ls, ws) => .ok (pr.1 ++ ps, pr.2 ++ ls, ws)
      | .error e => .error e
    | .error e =>
      if isCaught e then
        match assemble_slides fs slide_folder level dim label rest with
        | .ok (ps, ls, ws) => .ok (ps, ls, e.msg :: ws)
        | .error e2 => .error e2
      else
        .error e

/-- `PathaiaHandler.list_patches`: walk the project folder with the default
exclusion list, process every slide entry, and return the accumulated
`(patch_list, labels)` together with the warnings emitted. -/
def PathaiaHandler.list_patches (fs : FSNode) (h : PathaiaHandler) (level : Int)
    (dim : Int × Int) (label : String) :
    Except PyError (List PatchDescriptor × List Value × List String) :=
  match get_patch_folders_in_project fs h.project_folder defaultExclude with
  | .error e => .error e
  | .ok entries => assemble_slides fs h.slide_folder level dim label entries

/-! ### Per-slide views of the assembler, for stating its behaviour -/

/-- Result of the `try` body for one walker entry. -/
def slide_result (fs : FSNode) (sf : List String) (level : Int) (dim : Int × Int)
    (label : String) (e : String × List String) :
    Except PyError (List PatchDescriptor × List Value) :=
  process_slide fs sf level dim label e.1 e.2

/-- Descriptors a walker entry contributes to `patch_list` (none when its
processing raises). -/
def slide_descs (fs : FSNode) (sf : List String) (level : Int) (dim : Int × Int)
    (label : String) (e : String × List String) : List PatchDescriptor :=
  match slide_result fs sf level dim label e with
  | .ok pr => pr.1
  | .error _ => []

/-- Labels a walker entry contributes to `labels` (none when its processing
raises). -/
def slide_labels (fs : FSNode) (sf : List String) (level : Int) (dim : Int × Int)
    (label : String) (e : String × List String) : List Value :=
  match slide_result fs sf level dim label e with
  | .ok pr => pr.2
  | .error _ => []

/-- The warning a walker entry makes `list_patches` emit: the message of its
caught error, if any. -/
def slide_warning (fs : FSNode) (sf : List String) (level : Int) (dim : Int × Int)
    (label : String) (e : String × List String) : Option String :=
  match slide_result fs sf level dim label e with
  | .ok _ => none
  | .error err => if isCaught err then some err.msg else none

/-- A walker entry whose processing either succeeds or raises one of the
three caught error kinds (so it cannot abort the assembly). -/
def slide_nonfatal (fs : FSNode) (sf : List String) (level : Int) (dim : Int × Int)
    (label : String) (e : String × List String) : Bool :=
  match slide_result fs sf level dim label e with
  | .ok _ => true
  | .error err => isCaught err


/-! ### Concrete fixtures: the spec's walkthrough scenario -/

/-- Patch table of slide `slideA`: one row at level 0 labelled `yes`, one
row at level 1 labelled `no`. -/
def tableA : PatchTable :=
  ⟨["level", "x", "y", "tumor"],
   [[Value.int 0, Value.int 1, Value.int 2, Value.str "yes"],
    [Value.int 1, Value.int 3, Value.int 4, Value.str "no"]]⟩

/-- A root with project `proj` (slides `slideA` — valid, `slideB` — no
slide file, `notes_annotation` — excluded by name) and slide folder
`slides` holding `slideA.mrxs`. -/
def fs1 : FSNode := FSNode.dir
  [("proj", FSNode.dir
     [("slideA", FSNode.dir [("patches.csv", FSNode.file tableA)]),
      ("slideB", FSNode.dir []),
      ("notes_annotation", FSNode.dir [("patches.csv", FSNode.file tableA)])]),
   ("slides", FSNode.dir [("slideA.mrxs", FSNode.file ⟨[], []⟩)])]

/-- Handler over `proj` and `slides`. -/
def h1 : PathaiaHandler := ⟨["proj"], ["slides"]⟩

/-- A root with no project folder at all. -/
def fs0 : FSNode := FSNode.dir []

/-- A root whose project folder exists but yields no slide entries: one
subfolder is excluded by name, the other entry is a plain file. -/
def fs2 : FSNode := FSNode.dir
  [("proj", FSNode.dir
     [("notes_annotation", FSNode.dir []),
      ("readme.txt", FSNode.file ⟨[], []⟩)]),
   ("slides", FSNode.dir [])]

/-- The walker's yields over `fs1`'s project folder. -/
def entriesFs1 : List (String × List String) :=
  [("slideA", ["proj", "slideA"]), ("slideB", ["proj", "slideB"])]

/-- The one descriptor `list_patches` builds over `fs1` at level 0. -/
def descA : PatchDescriptor :=
  ⟨["slides", "slideA.mrxs"], Value.int 1, Value.int 2, 0, (256, 256)⟩

/-- The warning message `slideB` produces over `fs1`. -/
def warnB : String := "Could not find an mrxs slide file for: slideB in slides!!!"

/-! ### Error-shape lemmas: which error kinds each operation can raise -/

theorem rowCell_error (t : PatchTable) (r : List Value) (c : String) (e : PyError)
    (h : t.rowCell r c = .error e) : e = .externalError ("KeyError: " ++ c) := by
  unfold PatchTable.rowCell at h
  split at h
  · cases h
  · cases h; rfl

theorem map_rows_error (t : PatchTable) (column : String) :
    ∀ (rows : List (List Value)) (e : PyError),
      map_rows t column rows = .error e → ∃ m, e = .externalError m
  | [], e, h => by simp [map_rows] at h
  | r :: rs, e, h => by
    rw [map_rows] at h
    split at h
    · cases h; exact ⟨_, rowCell_error t r "x" _ (by assumption)⟩
    · split at h
      · cases h; exact ⟨_, rowCell_error t r "y" _ (by assumption)⟩
      · split at h
        · cases h; exact ⟨_, rowCell_error t r column _ (by assumption)⟩
        · split at h
          · cases h; exact map_rows_error t column rs _ (by assumption)
          · cases h

theorem get_slide_file_error (fs : FSNode) (sf : List String) (nm : String) (e : PyError)
    (h : get_slide_file fs sf nm = .error e) : ∃ m, e = .slideNotFound m := by
  unfold get_slide_file at h
  split at h
  · split at h
    · cases h
    · cases h; exact ⟨_, rfl⟩
  · cases h; exact ⟨_, rfl⟩

theorem get_patch_csv_error (fs : FSNode) (p : List String) (e : PyError)
    (h : get_patch_csv_from_patch_folder fs p = .error e) :
    (∃ m, e = .patchesNotFound m) ∨ ∃ m, e = .slideNotFound m := by
  unfold get_patch_csv_from_patch_folder at h
  split at h
  · split at h
    · cases h
    · cases h; exact .inl ⟨_, rfl⟩
  · cases h; exact .inr ⟨_, rfl⟩

theorem read_csv_error (fs : FSNode) (p : List String) (e : PyError)
    (h : read_csv fs p = .error e) : ∃ m, e = .externalError m := by
  unfold read_csv at h
  split at h
  · cases h
  · cases h; exact ⟨_, rfl⟩

theorem handle_labeled_patches_error (t : PatchTable) (pf : String) (level : Int)
    (column : String) (e : PyError)
    (h : handle_labeled_patches t pf level column = .error e) :
    (∃ m, e = .externalError m) ∨ ∃ m, e = .unknownColumn m := by
  unfold handle_labeled_patches at h
  split at h
  · split at h
    · exact .inl (map_rows_error t column _ e h)
    · cases h; exact .inr ⟨_, rfl⟩
  · cases h; exact .inl ⟨_, rfl⟩

theorem get_patch_folders_error (fs : FSNode) (p : List String) (excl : List String)
    (e : PyError) (h : get_patch_folders_in_project fs p excl = .error e) :
    ∃ m, e = .emptyProject m := by
  unfold get_patch_folders_in_project at h
  split at h
  · cases h
  · cases h; exact ⟨_, rfl⟩

theorem process_slide_error (fs : FSNode) (sf : List String) (level : Int)
    (dim : Int × Int) (label : String) (name : String) (pf : List String) (e : PyError)
    (h : process_slide fs sf level dim label name pf = .error e) :
    ∀ m, e ≠ PyError.levelNotFound m := by
  unfold process_slide at h
  split at h
  · cases h
    obtain ⟨m, rfl⟩ := get_slide_file_error fs sf name _ (by assumption)
    intro m2 hne; cases hne
  · split at h
    · cases h
      rcases get_patch_csv_error fs pf _ (by assumption) with ⟨m, rfl⟩ | ⟨m, rfl⟩ <;>
        (intro m2 hne; cases hne)
    · split at h
      · cases h
        obtain ⟨m, rfl⟩ := read_csv_error fs _ _ (by assumption)
        intro m2 hne; cases hne
      · split at h
        · cases h
          rcases handle_labeled_patches_error _ _ _ _ _ (by assumption) with
            ⟨m, rfl⟩ | ⟨m, rfl⟩ <;> (intro m2 hne; cases hne)
        · cases h

/-! ### The extractor and assembler on their success paths -/

theorem map_rows_ok (t : PatchTable) (column : String)
    (hx : "x" ∈ t.columns) (hy : "y" ∈ t.columns) (hc : column ∈ t.columns) :
    ∀ rows : List (List Value),
      map_rows t column rows =
        .ok (rows.map (fun r => (t.cell r "x", t.cell r "y", t.cell r column)))
  | [] => rfl
  | r :: rs => by
    simp [map_rows, PatchTable.rowCell, hx, hy, hc, map_rows_ok t column hx hy hc rs]

theorem process_slide_ok_inv (fs : FSNode) (sf : List String) (level : Int)
    (dim : Int × Int) (label : String) (name : String) (pf : List String)
    (pr : List PatchDescriptor × List Value)
    (h : process_slide fs sf level dim label name pf = .ok pr) :
    ∃ (slide_path : List String) (triples : List (Value × Value × Value)),
      get_slide_file fs sf name = .ok slide_path ∧
      pr = (triples.map (fun q => (⟨slide_path, q.1, q.2.1, level, dim⟩ : PatchDescriptor)),
            triples.map (fun q => (q.2.2 : Value))) := by
  unfold process_slide at h
  cases hsp : get_slide_file fs sf name with
  | error e => simp only [hsp] at h; cases h
  | ok slide_path =>
    simp only [hsp] at h
    cases hcsv : get_patch_csv_from_patch_folder fs pf with
    | error e => simp only [hcsv] at h; cases h
    | ok patch_file =>
      simp only [hcsv] at h
      cases hread : read_csv fs patch_file with
      | error e => simp only [hread] at h; cases h
      | ok t =>
        simp only [hread] at h
        cases hext : handle_labeled_patches t (pathStr patch_file) level label with
        | error e => simp only [hext] at h; cases h
        | ok triples =>
          simp only [hext] at h
          cases h
          exact ⟨slide_path, triples, rfl, rfl⟩

theorem assemble_eq_of_nonfatal (fs : FSNode) (sf : List String) (level : Int)
    (dim : Int × Int) (label : String) :
    ∀ l : List (String × List String),
      (∀ e ∈ l, slide_nonfatal fs sf level dim label e = true) →
      assemble_slides fs sf level dim label l =
        .ok (l.flatMap (slide_descs fs sf level dim label),
             l.flatMap (slide_labels fs sf level dim label),
             l.filterMap (slide_warning fs sf level dim label))
  | [], _ => by simp [assemble_slides]
  | (name, pf) :: rest, hall => by
    have hrest := assemble_eq_of_nonfatal fs sf level dim label rest
      (fun e he => hall e (List.mem_cons_of_mem _ he))
    have hhead := hall (name, pf) (List.mem_cons_self _ _)
    cases hres : process_slide fs sf level dim label name pf with
    | ok pr =>
      simp [assemble_slides, hres, hrest, List.flatMap_cons, List.filterMap_cons,
        slide_descs, slide_labels, slide_warning, slide_result]
    | error err =>
      have hcaught : isCaught err = true := by
        simpa [slide_nonfatal, slide_result, hres] using hhead
      simp [assemble_slides, hres, hrest, hcaught, List.flatMap_cons,
        List.filterMap_cons, slide_descs, slide_labels, slide_warning, slide_result]

theorem assemble_ok_inv (fs : FSNode) (sf : List String) (level : Int)
    (dim : Int × Int) (label : String) :
    ∀ (l : List (String × List String))
      (out : List PatchDescriptor × List Value × List String),
      assemble_slides fs sf level dim label l = .ok out →
      out = (l.flatMap (slide_descs fs sf level dim label),
             l.flatMap (slide_labels fs sf level dim label),
             l.filterMap (slide_warning fs sf level dim label))
  | [], out, h => by
    cases h
    simp
  | (name, pf) :: rest, out, h => by
    rw [assemble_slides] at h
    split at h
    next pr hres =>
      split at h
      next ps ls ws hrest =>
        cases h
        have hih := assemble_ok_inv fs sf level dim label rest (ps, ls, ws) hrest
        simp only [Prod.mk.injEq] at hih
        simp [List.flatMap_cons, List.filterMap_cons, slide_descs, slide_labels,
          slide_warning, slide_result, hres, hih.1, hih.2.1, hih.2.2]
      next hrest => cases h
    next err hres =>
      split at h
      · split at h
        next ps ls ws hrest =>
          cases h
          have hih := assemble_ok_inv fs sf level dim label rest (ps, ls, ws) hrest
          simp only [Prod.mk.injEq] at hih
          have hcaught : isCaught err = true := by assumption
          simp [List.flatMap_cons, List.filterMap_cons, slide_descs, slide_labels,
            slide_warning, slide_result, hres, hcaught, hih.1, hih.2.1, hih.2.2]
        next hrest => cases h
      · cases h

theorem assemble_error (fs : FSNode) (sf : List String) (level : Int)
    (dim : Int × Int) (label : String) :
    ∀ (l : List (String × List String)) (e : PyError),
      assemble_slides fs sf level dim label l = .error e →
      ∀ m, e ≠ PyError.levelNotFound m
  | [], e, h => by cases h
  | (name, pf) :: rest, e, h => by
    rw [assemble_slides] at h
    cases hres : process_slide fs sf level dim label name pf with
    | ok pr =>
      simp only [hres] at h
      cases hrest : assemble_slides fs sf level dim label rest with
      | ok out => simp only [hrest] at h; cases h
      | error e2 =>
        simp only [hrest] at h
        cases h
        exact assemble_error fs sf level dim label rest _ hrest
    | error err =>
      simp only [hres] at h
      by_cases hc : isCaught err = true
      · simp only [hc, if_true] at h
        cases hrest : assemble_slides fs sf level dim label rest with
        | ok out => simp only [hrest] at h; cases h
        | error e2 =>
          simp only [hrest] at h
          cases h
          exact assemble_error fs sf level dim label rest _ hrest
      · simp only [Bool.not_eq_true] at hc
        simp only [hc, Bool.false_eq_true, if_false] at h
        cases h
        exact process_slide_error fs sf level dim label name pf _ hres

theorem assemble_align (fs : FSNode) (sf : List String) (level : Int)
    (dim : Int × Int) (label : String) :
    ∀ (l : List (String × List String)) (ps : List PatchDescriptor)
      (ls : List Value) (ws : List String),
      assemble_slides fs sf level dim label l = .ok (ps, ls, ws) →
      ∃ ts : List (List String × Value × Value × Value),
        ps = ts.map (fun q => (⟨q.1, q.2.1, q.2.2.1, level, dim⟩ : PatchDescriptor)) ∧
        ls = ts.map (fun q => (q.2.2.2 : Value))
  | [], ps, ls, ws, h => by
    cases h
    exact ⟨[], rfl, rfl⟩
  | (name, pf) :: rest, ps, ls, ws, h => by
    rw [assemble_slides] at h
    cases hres : process_slide fs sf level dim label name pf with
    | ok pr =>
      simp only [hres] at h
      cases hrest : assemble_slides fs sf level dim label rest with
      | error e2 => simp only [hrest] at h; cases h
      | ok out =>
        obtain ⟨ps2, ls2, ws2⟩ := out
        simp only [hrest] at h
        cases h
        obtain ⟨ts2, hps2, hls2⟩ := assemble_align fs sf level dim label rest _ _ _ hrest
        obtain ⟨slide_path, triples, _, hpr⟩ :=
          process_slide_ok_inv fs sf level dim label name pf pr hres
        refine ⟨triples.map (fun q => (slide_path, q)) ++ ts2, ?_, ?_⟩
        · simp [hpr, hps2, List.map_map, Function.comp]
        · simp [hpr, hls2, List.map_map, Function.comp]
    | error err =>
      simp only [hres] at h
      by_cases hc : isCaught err = true
      · simp only [hc, if_true] at h
        cases hrest : assemble_slides fs sf level dim label rest with
        | error e2 => simp only [hrest] at h; cases h
        | ok out =>
          obtain ⟨ps2, ls2, ws2⟩ := out
          simp only [hrest] at h
          cases h
          exact assemble_align fs sf level dim label rest _ _ _ hrest
      · simp only [Bool.not_eq_true] at hc
        simp only [hc, Bool.false_eq_true, if_false] at h
        cases h

theorem assemble_descs_mem (fs : FSNode) (sf : List String) (level : Int)
    (dim : Int × Int) (label : String) :
    ∀ (l : List (String × List String)) (ps : List PatchDescriptor)
      (ls : List Value) (ws : List String),
      assemble_slides fs sf level dim label l = .ok (ps, ls, ws) →
      ∀ d ∈ ps, d.level = level ∧ d.dimensions = dim ∧
        ∃ (name : String) (pf : List String), (name, pf) ∈ l ∧
          get_slide_file fs sf name = .ok d.slide
  | [], ps, ls, ws, h => by
    cases h
    intro d hd
    cases hd
  | (name, pf) :: rest, ps, ls, ws, h => by
    rw [assemble_slides] at h
    cases hres : process_slide fs sf level dim label name pf with
    | ok pr =>
      simp only [hres] at h
      cases hrest : assemble_slides fs sf level dim label rest with
      | error e2 => simp only [hrest] at h; cases h
      | ok out =>
        obtain ⟨ps2, ls2, ws2⟩ := out
        simp only [hrest] at h
        cases h
        intro d hd
        rcases List.mem_append.mp hd with hd1 | hd2
        · obtain ⟨slide_path, triples, hsp, hpr⟩ :=
            process_slide_ok_inv fs sf level dim label name pf pr hres
          rw [hpr] at hd1
          simp only [List.mem_map] at hd1
          obtain ⟨q, _, rfl⟩ := hd1
          exact ⟨rfl, rfl, name, pf, List.mem_cons_self _ _, hsp⟩
        · obtain ⟨h1, h2, n2, pf2, hmem, hsp⟩ :=
            assemble_descs_mem fs sf level dim label rest _ _ _ hrest d hd2
          exact ⟨h1, h2, n2, pf2, List.mem_cons_of_mem _ hmem, hsp⟩
    | error err =>
      simp only [hres] at h
      by_cases hc : isCaught err = true
      · simp only [hc, if_true] at h
        cases hrest : assemble_slides fs sf level dim label rest with
        | error e2 => simp only [hrest] at h; cases h
        | ok out =>
          obtain ⟨ps2, ls2, ws2⟩ := out
          simp only [hrest] at h
          cases h
          intro d hd
          obtain ⟨h1, h2, n2, pf2, hmem, hsp⟩ :=
            assemble_descs_mem fs sf level dim label rest _ _ _ hrest d hd
          exact ⟨h1, h2, n2, pf2, List.mem_cons_of_mem _ hmem, hsp⟩
      · simp only [Bool.not_eq_true] at hc
        simp only [hc, Bool.false_eq_true, if_false] at h
        cases h

/-! ### The first-match structure of the slide-file scan -/

theorem find_slide_entry_some (slide_name : String) :
    ∀ (l : List String) (n : String), find_slide_entry slide_name l = some n →
      ∃ l1 l2, l = l1 ++ n :: l2 ∧ isSlideMatch slide_name n = true ∧
        ∀ m ∈ l1, isSlideMatch slide_name m = false
  | [], n, h => by cases h
  | a :: rest, n, h => by
    rw [find_slide_entry] at h
    by_cases hm : isSlideMatch slide_name a = true
    · rw [if_pos hm] at h
      cases h
      exact ⟨[], rest, rfl, hm, by intro m hm2; cases hm2⟩
    · rw [if_neg hm] at h
      obtain ⟨l1, l2, rfl, hn, hall⟩ := find_slide_entry_some slide_name rest n h
      refine ⟨a :: l1, l2, rfl, hn, ?_⟩
      intro m hm2
      rcases List.mem_cons.mp hm2 with rfl | hm3
      · simpa using hm
      · exact hall m hm3

theorem find_slide_entry_none (slide_name : String) :
    ∀ l : List String, (∀ n ∈ l, isSlideMatch slide_name n = false) →
      find_slide_entry slide_name l = none
  | [], _ => rfl
  | a :: rest, hall => by
    rw [find_slide_entry]
    rw [if_neg (by simp [hall a (List.mem_cons_self _ _)])]
    exact find_slide_entry_none slide_name rest
      (fun n hn => hall n (List.mem_cons_of_mem _ hn))


/-! ### Success-path inversions: what an `ok` result must look like -/

theorem rowCell_ok (t : PatchTable) (r : List Value) (c : String) (v : Value)
    (h : t.rowCell r c = .ok v) : v = t.cell r c := by
  unfold PatchTable.rowCell at h
  split at h
  · cases h; rfl
  · cases h

theorem map_rows_ok_inv (t : PatchTable) (column : String) :
    ∀ (rows : List (List Value)) (out : List (Value × Value × Value)),
      map_rows t column rows = .ok out →
      out = rows.map (fun r => (t.cell r "x", t.cell r "y", t.cell r column))
  | [], out, h => by cases h; rfl
  | r :: rs, out, h => by
    rw [map_rows] at h
    cases hx : t.rowCell r "x" with
    | error e => simp only [hx] at h; cases h
    | ok xv =>
      simp only [hx] at h
      cases hy : t.rowCell r "y" with
      | error e => simp only [hy] at h; cases h
      | ok yv =>
        simp only [hy] at h
        cases hcv : t.rowCell r column with
        | error e => simp only [hcv] at h; cases h
        | ok lv =>
          simp only [hcv] at h
          cases hrest : map_rows t column rs with
          | error e => simp only [hrest] at h; cases h
          | ok rest =>
            simp only [hrest] at h
            cases h
            rw [List.map_cons, rowCell_ok t r "x" xv hx, rowCell_ok t r "y" yv hy,
              rowCell_ok t r column lv hcv, map_rows_ok_inv t column rs rest hrest]

theorem handle_labeled_patches_ok_inv (t : PatchTable) (pf : String) (level : Int)
    (column : String) (out : List (Value × Value × Value))
    (h : handle_labeled_patches t pf level column = .ok out) :
    out = (t.rows.filter (fun r => decide (t.cell r "level" = Value.int level))).map
      (fun r => (t.cell r "x", t.cell r "y", t.cell r column)) := by
  unfold handle_labeled_patches at h
  split at h
  · split at h
    · exact map_rows_ok_inv t column _ out h
    · cases h
  · cases h

theorem process_slide_ok_full (fs : FSNode) (sf : List String) (level : Int)
    (dim : Int × Int) (label : String) (name : String) (pf : List String)
    (pr : List PatchDescriptor × List Value)
    (h : process_slide fs sf level dim label name pf = .ok pr) :
    ∃ (sp : List String) (patch_file : List String) (t : PatchTable),
      get_slide_file fs sf name = .ok sp ∧
      get_patch_csv_from_patch_folder fs pf = .ok patch_file ∧
      read_csv fs patch_file = .ok t ∧
      pr = ((t.rows.filter (fun r => decide (t.cell r "level" = Value.int level))).map
              (fun r => (⟨sp, t.cell r "x", t.cell r "y", level, dim⟩ : PatchDescriptor)),
            (t.rows.filter (fun r => decide (t.cell r "level" = Value.int level))).map
              (fun r => (t.cell r label : Value))) := by
  unfold process_slide at h
  cases hsp : get_slide_file fs sf name with
  | error e => simp only [hsp] at h; cases h
  | ok slide_path =>
    simp only [hsp] at h
    cases hcsv : get_patch_csv_from_patch_folder fs pf with
    | error e => simp only [hcsv] at h; cases h
    | ok patch_file =>
      simp only [hcsv] at h
      cases hread : read_csv fs patch_file with
      | error e => simp only [hread] at h; cases h
      | ok t =>
        simp only [hread] at h
        cases hext : handle_labeled_patches t (pathStr patch_file) level label with
        | error e => simp only [hext] at h; cases h
        | ok triples =>
          simp only [hext] at h
          cases h
          have htr := handle_labeled_patches_ok_inv t (pathStr patch_file) level label
            triples hext
          refine ⟨slide_path, patch_file, t, rfl, rfl, hread, ?_⟩
          rw [htr]
          simp [List.map_map, Function.comp]

theorem flatMap_length_eq {α β γ : Type} (f : α → List β) (g : α → List γ) :
    ∀ l : List α, (∀ e ∈ l, (f e).length = (g e).length) →
      (l.flatMap f).length = (l.flatMap g).length
  | [], _ => rfl
  | a :: l, hall => by
    simp only [List.flatMap_cons, List.length_append]
    rw [hall a (List.mem_cons_self _ _),
      flatMap_length_eq f g l (fun e he => hall e (List.mem_cons_of_mem _ he))]

theorem slide_descs_labels_length (fs : FSNode) (sf : List String) (level : Int)
    (dim : Int × Int) (label : String) (e : String × List String) :
    (slide_descs fs sf level dim label e).length =
      (slide_labels fs sf level dim label e).length := by
  unfold slide_descs slide_labels
  cases hres : slide_result fs sf level dim label e with
  | error err => rfl
  | ok pr =>
    have hres2 : process_slide fs sf level dim label e.1 e.2 = .ok pr := hres
    obtain ⟨sp, triples, _, hpr⟩ :=
      process_slide_ok_inv fs sf level dim label e.1 e.2 pr hres2
    rw [hpr]
    simp

theorem find_slide_entry_first (slide_name : String) :
    ∀ (l1 : List String) (n : String) (l2 : List String),
      isSlideMatch slide_name n = true →
      (∀ m ∈ l1, isSlideMatch slide_name m = false) →
      find_slide_entry slide_name (l1 ++ n :: l2) = some n
  | [], n, l2, hn, _ => by rw [List.nil_append, find_slide_entry, if_pos hn]
  | a :: l1, n, l2, hn, hall => by
    rw [List.cons_append, find_slide_entry,
      if_neg (by simp [hall a (List.mem_cons_self _ _)])]
    exact find_slide_entry_first slide_name l1 n l2 hn
      (fun m hm => hall m (List.mem_cons_of_mem _ hm))

/-! ### The claims -/

/-- C1: if processing one slide entry raises `SlideNotFoundError`,
`PatchesNotFoundError` or `UnknownColumnError` (and no entry raises an
error outside the caught kinds, which would abort the whole assembly),
then `list_patches` still succeeds, its output decomposes entry by entry,
the failing slide contributes no patch descriptor and no label — not even
partially — its error message is reported as a warning, and every other
entry is still processed and contributes its own output. -/
theorem claim_C1 (fs : FSNode) (h : PathaiaHandler) (level : Int) (dim : Int × Int)
    (label : String) (entries : List (String × List String)) (name : String)
    (pf : List String) (err : PyError)
    (hwalk : get_patch_folders_in_project fs h.project_folder defaultExclude = .ok entries)
    (hnf : entries.all (slide_nonfatal fs h.slide_folder level dim label) = true)
    (hmem : (name, pf) ∈ entries)
    (herr : process_slide fs h.slide_folder level dim label name pf = .error err) :
    PathaiaHandler.list_patches fs h level dim label =
      .ok (entries.flatMap (slide_descs fs h.slide_folder level dim label),
           entries.flatMap (slide_labels fs h.slide_folder level dim label),
           entries.filterMap (slide_warning fs h.slide_folder level dim label)) ∧
    slide_descs fs h.slide_folder level dim label (name, pf) = [] ∧
    slide_labels fs h.slide_folder level dim label (name, pf) = [] ∧
    err.msg ∈ entries.filterMap (slide_warning fs h.slide_folder level dim label) := by
  have hnf' : ∀ e ∈ entries, slide_nonfatal fs h.slide_folder level dim label e = true :=
    fun e he => List.all_eq_true.mp hnf e he
  have hcaught : isCaught err = true := by
    have hthis := hnf' (name, pf) hmem
    simpa [slide_nonfatal, slide_result, herr] using hthis
  refine ⟨?_, ?_, ?_, ?_⟩
  · unfold PathaiaHandler.list_patches
    rw [hwalk]
    exact assemble_eq_of_nonfatal fs h.slide_folder level dim label entries hnf'
  · simp [slide_descs, slide_result, herr]
  · simp [slide_labels, slide_result, herr]
  · exact List.mem_filterMap.mpr
      ⟨(name, pf), hmem, by simp [slide_warning, slide_result, herr, hcaught]⟩

/-- C2: on a table with the required `level`, `x`, `y` columns whose
columns include the queried label column, the extractor succeeds and
yields exactly the rows whose `level` cell equals the queried level — no
row with a different level, every row with the matching level — in the
table's original row order, each as `(x, y, label-column value)`. -/
theorem claim_C2 (t : PatchTable) (patch_file : String) (level : Int) (column : String)
    (hl : "level" ∈ t.columns) (hx : "x" ∈ t.columns) (hy : "y" ∈ t.columns)
    (hc : column ∈ t.columns) :
    handle_labeled_patches t patch_file level column =
      .ok ((t.rows.filter (fun r => decide (t.cell r "level" = Value.int level))).map
            (fun r => (t.cell r "x", t.cell r "y", t.cell r column))) := by
  unfold handle_labeled_patches
  rw [if_pos hl, if_pos hc]
  exact map_rows_ok t column hx hy hc _

/-- C3: a successful `list_patches` returns two lists of the same length
that decompose entry by entry in walker order, and for every successfully
processed slide entry both its descriptor segment and its label segment
are maps over the same level-filtered row list of that entry's parsed
table, in table row order: the label at position `i` is the label-column
cell of the very row whose `x`/`y` cells and slide path built the
descriptor at position `i`.  In particular, when the walker yields a
single valid slide, both lists' length is the number N of its table's
rows at the queried level and `ls` lists those rows' label cells in row
order. -/
theorem claim_C3 (fs : FSNode) (h : PathaiaHandler) (level : Int) (dim : Int × Int)
    (label : String) (ps : List PatchDescriptor) (ls : List Value) (ws : List String)
    (hok : PathaiaHandler.list_patches fs h level dim label = .ok (ps, ls, ws)) :
    ps.length = ls.length ∧
    ∃ entries : List (String × List String),
      get_patch_folders_in_project fs h.project_folder defaultExclude = .ok entries ∧
      ps = entries.flatMap (slide_descs fs h.slide_folder level dim label) ∧
      ls = entries.flatMap (slide_labels fs h.slide_folder level dim label) ∧
      (∀ e ∈ entries, ∀ pr,
        slide_result fs h.slide_folder level dim label e = .ok pr →
        ∃ (sp : List String) (patch_file : List String) (t : PatchTable),
          get_slide_file fs h.slide_folder e.1 = .ok sp ∧
          get_patch_csv_from_patch_folder fs e.2 = .ok patch_file ∧
          read_csv fs patch_file = .ok t ∧
          slide_descs fs h.slide_folder level dim label e =
            (t.rows.filter (fun r => decide (t.cell r "level" = Value.int level))).map
              (fun r => (⟨sp, t.cell r "x", t.cell r "y", level, dim⟩ : PatchDescriptor)) ∧
          slide_labels fs h.slide_folder level dim label e =
            (t.rows.filter (fun r => decide (t.cell r "level" = Value.int level))).map
              (fun r => (t.cell r label : Value))) ∧
      (∀ e pr, entries = [e] →
        slide_result fs h.slide_folder level dim label e = .ok pr →
        ∃ (patch_file : List String) (t : PatchTable),
          get_patch_csv_from_patch_folder fs e.2 = .ok patch_file ∧
          read_csv fs patch_file = .ok t ∧
          ps.length =
            (t.rows.filter (fun r => decide (t.cell r "level" = Value.int level))).length ∧
          ls = (t.rows.filter (fun r => decide (t.cell r "level" = Value.int level))).map
            (fun r => (t.cell r label : Value))) := by
  unfold PathaiaHandler.list_patches at hok
  cases hwalk : get_patch_folders_in_project fs h.project_folder defaultExclude with
  | error e => simp only [hwalk] at hok; cases hok
  | ok entries =>
    simp only [hwalk] at hok
    have hinv := assemble_ok_inv fs h.slide_folder level dim label entries (ps, ls, ws) hok
    simp only [Prod.mk.injEq] at hinv
    obtain ⟨hps, hls, hws⟩ := hinv
    have hperentry : ∀ e ∈ entries, ∀ pr,
        slide_result fs h.slide_folder level dim label e = .ok pr →
        ∃ (sp : List String) (patch_file : List String) (t : PatchTable),
          get_slide_file fs h.slide_folder e.1 = .ok sp ∧
          get_patch_csv_from_patch_folder fs e.2 = .ok patch_file ∧
          read_csv fs patch_file = .ok t ∧
          slide_descs fs h.slide_folder level dim label e =
            (t.rows.filter (fun r => decide (t.cell r "level" = Value.int level))).map
              (fun r => (⟨sp, t.cell r "x", t.cell r "y", level, dim⟩ : PatchDescriptor)) ∧
          slide_labels fs h.slide_folder level dim label e =
            (t.rows.filter (fun r => decide (t.cell r "level" = Value.int level))).map
              (fun r => (t.cell r label : Value)) := by
      intro e he pr hres
      have hres2 : process_slide fs h.slide_folder level dim label e.1 e.2 = .ok pr := hres
      obtain ⟨sp, patch_file, t, hsp, hcsv, hread, hpr⟩ :=
        process_slide_ok_full fs h.slide_folder level dim label e.1 e.2 pr hres2
      refine ⟨sp, patch_file, t, hsp, hcsv, hread, ?_, ?_⟩
      · simp [slide_descs, slide_result, hres2, hpr]
      · simp [slide_labels, slide_result, hres2, hpr]
    refine ⟨?_, entries, rfl, hps, hls, hperentry, ?_⟩
    · rw [hps, hls]
      exact flatMap_length_eq _ _ entries
        (fun e _ => slide_descs_labels_length fs h.slide_folder level dim label e)
    · intro e pr hentries hres
      subst hentries
      have hres2 : process_slide fs h.slide_folder level dim label e.1 e.2 = .ok pr := hres
      obtain ⟨sp, patch_file, t, hsp, hcsv, hread, hpr⟩ :=
        process_slide_ok_full fs h.slide_folder level dim label e.1 e.2 pr hres2
      refine ⟨patch_file, t, hcsv, hread, ?_, ?_⟩
      · rw [hps]
        simp [slide_descs, slide_result, hres2, hpr]
      · rw [hls]
        simp [slide_labels, slide_result, hres2, hpr]

/-- C4: when the project folder is not a directory, `list_patches` raises
`EmptyProjectError` (naming the path) before producing anything; the error
is not caught by the assembler, so the call returns no partial pair. -/
theorem claim_C4 (fs : FSNode) (h : PathaiaHandler) (level : Int) (dim : Int × Int)
    (label : String) (hdir : isdir fs h.project_folder = false) :
    PathaiaHandler.list_patches fs h level dim label =
      .error (.emptyProject ("Did not find any project at: " ++ pathStr h.project_folder)) := by
  unfold PathaiaHandler.list_patches get_patch_folders_in_project
  rw [hdir]
  simp

/-- C5: every entry the project walker yields has a name containing none
of the excluded substrings (matching is case-sensitive substring
containment, so any excluded term anywhere in a name causes exclusion) and
is an immediate subdirectory of the project folder: excluded names and
non-directory entries are never yielded, hence contribute nothing to the
assembled output. -/
theorem claim_C5 (fs : FSNode) (project_folder : List String) (exclude : List String)
    (entries : List (String × List String))
    (hwalk : get_patch_folders_in_project fs project_folder exclude = .ok entries)
    (name : String) (p : List String) (hmem : (name, p) ∈ entries) :
    (∀ ex ∈ exclude, containsSub name ex = false) ∧
    isdir fs (project_folder ++ [name]) = true ∧ p = project_folder ++ [name] := by
  unfold get_patch_folders_in_project at hwalk
  by_cases hdir : isdir fs project_folder = true
  · rw [if_pos hdir] at hwalk
    cases hwalk
    obtain ⟨a, ha, hfa⟩ := List.mem_filterMap.mp hmem
    by_cases hex : exclude.any (fun ex => containsSub a ex) = true
    · rw [if_pos hex] at hfa; cases hfa
    · rw [if_neg hex] at hfa
      by_cases hd2 : isdir fs (project_folder ++ [a]) = true
      · rw [if_pos hd2] at hfa
        cases hfa
        refine ⟨?_, hd2, rfl⟩
        intro ex hexm
        cases hcs : containsSub name ex with
        | false => rfl
        | true => exact absurd (List.any_eq_true.mpr ⟨ex, hexm, hcs⟩) hex
      · rw [if_neg hd2] at hfa; cases hfa
  · rw [if_neg hdir] at hwalk; cases hwalk

/-- C6: for a directory slide folder, the slide-file locator returns
exactly the first listing entry that ends in `.mrxs`, is not hidden (no
leading dot), and whose extension-stripped base equals the slide name
(`isSlideMatch`): whenever the listing splits as `l1 ++ n :: l2` with `n`
matching and nothing in `l1` matching, the call succeeds with the joined
path of `n`, and conversely every success arises this way; with no
matching entry it raises `SlideNotFoundError` whose message names both
the slide name and the folder path; on a non-directory it raises
`SlideNotFoundError` naming the folder. -/
theorem claim_C6 (fs : FSNode) (slide_folder : List String) (slide_name : String) :
    (isdir fs slide_folder = false →
      get_slide_file fs slide_folder slide_name =
        .error (.slideNotFound
          ("Could not find a slide folder at: " ++ pathStr slide_folder ++ "!!!"))) ∧
    (∀ l1 n l2, isdir fs slide_folder = true →
      listdir fs slide_folder = l1 ++ n :: l2 →
      isSlideMatch slide_name n = true →
      (∀ m ∈ l1, isSlideMatch slide_name m = false) →
      get_slide_file fs slide_folder slide_name = .ok (slide_folder ++ [n])) ∧
    (∀ p, get_slide_file fs slide_folder slide_name = .ok p →
      ∃ l1 n l2, listdir fs slide_folder = l1 ++ n :: l2 ∧
        isSlideMatch slide_name n = true ∧
        (∀ m ∈ l1, isSlideMatch slide_name m = false) ∧
        p = slide_folder ++ [n]) ∧
    (isdir fs slide_folder = true →
      (∀ n ∈ listdir fs slide_folder, isSlideMatch slide_name n = false) →
      get_slide_file fs slide_folder slide_name =
        .error (.slideNotFound
          ("Could not find an mrxs slide file for: " ++ slide_name ++ " in "
            ++ pathStr slide_folder ++ "!!!"))) := by
  refine ⟨?_, ?_, ?_, ?_⟩
  · intro hdir
    unfold get_slide_file
    rw [if_neg (by simp [hdir])]
  · intro l1 n l2 hdir hlist hn hl1
    unfold get_slide_file
    rw [if_pos hdir, hlist, find_slide_entry_first slide_name l1 n l2 hn hl1]
  · intro p hp
    unfold get_slide_file at hp
    by_cases hdir : isdir fs slide_folder = true
    · rw [if_pos hdir] at hp
      cases hfind : find_slide_entry slide_name (listdir fs slide_folder) with
      | none => simp only [hfind] at hp; cases hp
      | some n =>
        simp only [hfind] at hp
        cases hp
        obtain ⟨l1, l2, hdecomp, hm, hall⟩ := find_slide_entry_some slide_name _ n hfind
        exact ⟨l1, n, l2, hdecomp, hm, hall, rfl⟩
    · rw [if_neg hdir] at hp; cases hp
  · intro hdir hnone
    unfold get_slide_file
    rw [if_pos hdir, find_slide_entry_none slide_name _ hnone]

/-- C7: on a table with a `level` column, the extractor raises
`UnknownColumnError` exactly when the requested label column is not among
the columns of the level-filtered view (row filtering keeps every column,
so these are the table's columns); the check sits after the level filter
and before any row is yielded, and with the column present no
`UnknownColumnError` is possible. -/
theorem claim_C7 (t : PatchTable) (patch_file : String) (level : Int) (column : String)
    (hl : "level" ∈ t.columns) :
    (∃ m, handle_labeled_patches t patch_file level column = .error (.unknownColumn m)) ↔
      column ∉ t.columns := by
  unfold handle_labeled_patches
  rw [if_pos hl]
  by_cases hc : column ∈ t.columns
  · rw [if_pos hc]
    simp only [hc, not_true, iff_false]
    rintro ⟨m, hm⟩
    obtain ⟨m2, hm2⟩ := map_rows_error t column _ _ hm
    cases hm2
  · rw [if_neg hc]
    exact iff_of_true ⟨_, rfl⟩ hc

/-- C8: the descriptor list of a successful `list_patches` decomposes into
per-entry segments in walker order, and every descriptor in the segment of
a slide entry has its slide field equal to the slide file path the locator
resolved for that very entry's name, its level field equal to the queried
level argument (not a table cell), and its dimensions field equal to the
caller-supplied pair, uniformly. -/
theorem claim_C8 (fs : FSNode) (h : PathaiaHandler) (level : Int) (dim : Int × Int)
    (label : String) (ps : List PatchDescriptor) (ls : List Value) (ws : List String)
    (hok : PathaiaHandler.list_patches fs h level dim label = .ok (ps, ls, ws)) :
    ∃ entries : List (String × List String),
      get_patch_folders_in_project fs h.project_folder defaultExclude = .ok entries ∧
      ps = entries.flatMap (slide_descs fs h.slide_folder level dim label) ∧
      ∀ e ∈ entries, ∀ d ∈ slide_descs fs h.slide_folder level dim label e,
        d.level = level ∧ d.dimensions = dim ∧
        get_slide_file fs h.slide_folder e.1 = .ok d.slide := by
  unfold PathaiaHandler.list_patches at hok
  cases hwalk : get_patch_folders_in_project fs h.project_folder defaultExclude with
  | error e => simp only [hwalk] at hok; cases hok
  | ok entries =>
    simp only [hwalk] at hok
    have hinv := assemble_ok_inv fs h.slide_folder level dim label entries (ps, ls, ws) hok
    simp only [Prod.mk.injEq] at hinv
    refine ⟨entries, rfl, hinv.1, ?_⟩
    intro e he d hd
    cases hres : slide_result fs h.slide_folder level dim label e with
    | error err => simp [slide_descs, hres] at hd
    | ok pr =>
      have hres2 : process_slide fs h.slide_folder level dim label e.1 e.2 = .ok pr := hres
      obtain ⟨sp, triples, hsp, hpr⟩ :=
        process_slide_ok_inv fs h.slide_folder level dim label e.1 e.2 pr hres2
      simp only [slide_descs, hres, hpr] at hd
      simp only [List.mem_map] at hd
      obtain ⟨q, hq, rfl⟩ := hd
      exact ⟨rfl, rfl, hsp⟩

/-- C9: a project folder that exists as a directory but yields no slide
entry (each listed name is excluded by substring or is not a directory)
makes `list_patches` return two empty lists with no error and no
warning. -/
theorem claim_C9 (fs : FSNode) (h : PathaiaHandler) (level : Int) (dim : Int × Int)
    (label : String) (hdir : isdir fs h.project_folder = true)
    (hnone : ∀ name ∈ listdir fs h.project_folder,
      defaultExclude.any (fun ex => containsSub name ex) = true ∨
      isdir fs (h.project_folder ++ [name]) = false) :
    PathaiaHandler.list_patches fs h level dim label = .ok ([], [], []) := by
  have hwalk : get_patch_folders_in_project fs h.project_folder defaultExclude = .ok [] := by
    unfold get_patch_folders_in_project
    rw [if_pos hdir]
    congr 1
    rw [List.filterMap_eq_nil_iff]
    intro a ha
    rcases hnone a ha with h1 | h1
    · simp [h1]
    · simp [h1]
  unfold PathaiaHandler.list_patches
  rw [hwalk]
  rfl

/-- C10: querying a level that matches no row of a table containing the
label column yields the empty sequence without error; and no operation of
the module — csv locator, project walker, slide locator, extractor, or
`list_patches` — ever raises the declared `LevelNotFoundError`. -/
theorem claim_C10 :
    (∀ (t : PatchTable) (patch_file : String) (level : Int) (column : String),
      "level" ∈ t.columns → column ∈ t.columns →
      (∀ r ∈ t.rows, t.cell r "level" ≠ Value.int level) →
      handle_labeled_patches t patch_file level column = .ok []) ∧
    (∀ (fs : FSNode) (p : List String) (m : String),
      get_patch_csv_from_patch_folder fs p ≠ .error (.levelNotFound m)) ∧
    (∀ (fs : FSNode) (p : List String) (excl : List String) (m : String),
      get_patch_folders_in_project fs p excl ≠ .error (.levelNotFound m)) ∧
    (∀ (fs : FSNode) (sf : List String) (nm : String) (m : String),
      get_slide_file fs sf nm ≠ .error (.levelNotFound m)) ∧
    (∀ (t : PatchTable) (patch_file : String) (level : Int) (column m : String),
      handle_labeled_patches t patch_file level column ≠ .error (.levelNotFound m)) ∧
    (∀ (fs : FSNode) (h : PathaiaHandler) (level : Int) (dim : Int × Int)
      (label m : String),
      PathaiaHandler.list_patches fs h level dim label ≠ .error (.levelNotFound m)) := by
  refine ⟨?_, ?_, ?_, ?_, ?_, ?_⟩
  · intro t patch_file level column hl hc hno
    unfold handle_labeled_patches
    rw [if_pos hl, if_pos hc]
    have hfil : t.rows.filter (fun r => decide (t.cell r "level" = Value.int level)) = [] := by
      rw [List.filter_eq_nil_iff]
      intro r hr
      simp [hno r hr]
    rw [hfil]
    rfl
  · intro fs p m hcon
    rcases get_patch_csv_error fs p _ hcon with ⟨m2, hm⟩ | ⟨m2, hm⟩ <;> cases hm
  · intro fs p excl m hcon
    obtain ⟨m2, hm⟩ := get_patch_folders_error fs p excl _ hcon
    cases hm
  · intro fs sf nm m hcon
    obtain ⟨m2, hm⟩ := get_slide_file_error fs sf nm _ hcon
    cases hm
  · intro t patch_file level column m hcon
    rcases handle_labeled_patches_error t patch_file level column _ hcon with
      ⟨m2, hm⟩ | ⟨m2, hm⟩ <;> cases hm
  · intro fs h level dim label m hcon
    unfold PathaiaHandler.list_patches at hcon
    cases hwalk : get_patch_folders_in_project fs h.project_folder defaultExclude with
    | error e =>
      simp only [hwalk] at hcon
      cases hcon
      obtain ⟨m2, hm⟩ := get_patch_folders_error fs h.project_folder defaultExclude _ hwalk
      cases hm
    | ok entries =>
      simp only [hwalk] at hcon
      exact absurd rfl (assemble_error fs h.slide_folder level dim label entries _ hcon m)

/-! ### Witnesses: each theorem applied at a concrete project -/

/-- C1 witnessed on `fs1`: `slideB` has no slide file, its
`SlideNotFoundError` is warned and it contributes nothing, while `slideA`
is still processed. -/
theorem claim_C1_witness :
    PathaiaHandler.list_patches fs1 h1 0 (256, 256) "tumor" =
      .ok (entriesFs1.flatMap (slide_descs fs1 ["slides"] 0 (256, 256) "tumor"),
           entriesFs1.flatMap (slide_labels fs1 ["slides"] 0 (256, 256) "tumor"),
           entriesFs1.filterMap (slide_warning fs1 ["slides"] 0 (256, 256) "tumor")) ∧
    slide_descs fs1 ["slides"] 0 (256, 256) "tumor" ("slideB", ["proj", "slideB"]) = [] ∧
    slide_labels fs1 ["slides"] 0 (256, 256) "tumor" ("slideB", ["proj", "slideB"]) = [] ∧
    (PyError.slideNotFound warnB).msg ∈
      entriesFs1.filterMap (slide_warning fs1 ["slides"] 0 (256, 256) "tumor") :=
  claim_C1 fs1 h1 0 (256, 256) "tumor" entriesFs1 "slideB" ["proj", "slideB"]
    (.slideNotFound warnB) rfl (by decide) (by decide) rfl

/-- C2 witnessed on `tableA` at level 0: exactly the level-0 row comes
back as `(1, 2, "yes")`. -/
theorem claim_C2_witness :
    handle_labeled_patches tableA "proj/slideA/patches.csv" 0 "tumor" =
      .ok [(Value.int 1, Value.int 2, Value.str "yes")] :=
  (claim_C2 tableA "proj/slideA/patches.csv" 0 "tumor"
    (by decide) (by decide) (by decide) (by decide)).trans (by rfl)

/-- C3 witnessed on `fs1`: one descriptor, one label, both projections of
`slideA`'s single level-0 table row. -/
theorem claim_C3_witness :
    ([descA] : List PatchDescriptor).length = ([Value.str "yes"] : List Value).length ∧
    ∃ entries : List (String × List String),
      get_patch_folders_in_project fs1 ["proj"] defaultExclude = .ok entries ∧
      [descA] = entries.flatMap (slide_descs fs1 ["slides"] 0 (256, 256) "tumor") ∧
      [Value.str "yes"] =
        entries.flatMap (slide_labels fs1 ["slides"] 0 (256, 256) "tumor") ∧
      (∀ e ∈ entries, ∀ pr,
        slide_result fs1 ["slides"] 0 (256, 256) "tumor" e = .ok pr →
        ∃ (sp : List String) (patch_file : List String) (t : PatchTable),
          get_slide_file fs1 ["slides"] e.1 = .ok sp ∧
          get_patch_csv_from_patch_folder fs1 e.2 = .ok patch_file ∧
          read_csv fs1 patch_file = .ok t ∧
          slide_descs fs1 ["slides"] 0 (256, 256) "tumor" e =
            (t.rows.filter (fun r => decide (t.cell r "level" = Value.int 0))).map
              (fun r => (⟨sp, t.cell r "x", t.cell r "y", 0, (256, 256)⟩ : PatchDescriptor)) ∧
          slide_labels fs1 ["slides"] 0 (256, 256) "tumor" e =
            (t.rows.filter (fun r => decide (t.cell r "level" = Value.int 0))).map
              (fun r => (t.cell r "tumor" : Value))) ∧
      (∀ e pr, entries = [e] →
        slide_result fs1 ["slides"] 0 (256, 256) "tumor" e = .ok pr →
        ∃ (patch_file : List String) (t : PatchTable),
          get_patch_csv_from_patch_folder fs1 e.2 = .ok patch_file ∧
          read_csv fs1 patch_file = .ok t ∧
          ([descA] : List PatchDescriptor).length =
            (t.rows.filter (fun r => decide (t.cell r "level" = Value.int 0))).length ∧
          ([Value.str "yes"] : List Value) =
            (t.rows.filter (fun r => decide (t.cell r "level" = Value.int 0))).map
              (fun r => (t.cell r "tumor" : Value))) :=
  claim_C3 fs1 h1 0 (256, 256) "tumor" [descA] [Value.str "yes"] [warnB] rfl

/-- C4 witnessed on an empty root: no project directory. -/
theorem claim_C4_witness :
    PathaiaHandler.list_patches fs0 h1 0 (256, 256) "tumor" =
      .error (.emptyProject ("Did not find any project at: " ++ pathStr ["proj"])) :=
  claim_C4 fs0 h1 0 (256, 256) "tumor" rfl

/-- C5 witnessed on `fs1`: the yielded entry `slideA` matches no excluded
substring and is a directory under the project folder. -/
theorem claim_C5_witness :
    (∀ ex ∈ defaultExclude, containsSub "slideA" ex = false) ∧
    isdir fs1 (["proj"] ++ ["slideA"]) = true ∧
    ["proj", "slideA"] = ["proj"] ++ ["slideA"] :=
  claim_C5 fs1 ["proj"] defaultExclude entriesFs1 rfl "slideA" ["proj", "slideA"]
    (by decide)

/-- C6 witnessed on `fs1`'s slide folder: `slideA.mrxs` is the first (and
only) matching entry, so the locator returns its joined path. -/
theorem claim_C6_witness :
    get_slide_file fs1 ["slides"] "slideA" = .ok (["slides"] ++ ["slideA.mrxs"]) :=
  (claim_C6 fs1 ["slides"] "slideA").2.1 [] "slideA.mrxs" [] rfl rfl (by decide)
    (by decide)

/-- C7 witnessed on `tableA`: querying the absent column `grade` raises
`UnknownColumnError`. -/
theorem claim_C7_witness :
    ∃ m, handle_labeled_patches tableA "proj/slideA/patches.csv" 0 "grade" =
      .error (.unknownColumn m) :=
  (claim_C7 tableA "proj/slideA/patches.csv" 0 "grade" (by decide)).mpr (by decide)

/-- C8 witnessed on `fs1`: the descriptor list is `slideA`'s segment, and
its descriptor carries level 0, dimensions (256, 256) and the path
resolved for `slideA` itself. -/
theorem claim_C8_witness :
    ∃ entries : List (String × List String),
      get_patch_folders_in_project fs1 ["proj"] defaultExclude = .ok entries ∧
      ([descA] : List PatchDescriptor) =
        entries.flatMap (slide_descs fs1 ["slides"] 0 (256, 256) "tumor") ∧
      ∀ e ∈ entries, ∀ d ∈ slide_descs fs1 ["slides"] 0 (256, 256) "tumor" e,
        d.level = 0 ∧ d.dimensions = (256, 256) ∧
        get_slide_file fs1 ["slides"] e.1 = .ok d.slide :=
  claim_C8 fs1 h1 0 (256, 256) "tumor" [descA] [Value.str "yes"] [warnB] rfl

/-- C9 witnessed on `fs2`: a project directory holding only an excluded
folder and a plain file yields `([], [], [])`. -/
theorem claim_C9_witness :
    PathaiaHandler.list_patches fs2 h1 0 (256, 256) "tumor" = .ok ([], [], []) :=
  claim_C9 fs2 h1 0 (256, 256) "tumor" rfl (by decide)

/-- C10 witnessed on `tableA`: level 5 matches no row, the extractor
returns the empty list without error. -/
theorem claim_C10_witness :
    handle_labeled_patches tableA "proj/slideA/patches.csv" 5 "tumor" = .ok [] :=
  claim_C10.1 tableA "proj/slideA/patches.csv" 5 "tumor" (by decide) (by decide)
    (by decide)
